import Mathlib

/-!
# Verification of the multi-strategy vector similarity store

Shallow embedding of the vector-store core of this repository, together with
proofs settling the behavioral claims of the specification against it.

The embedded modules are:

* `VectorQuery`   — `finished/amr/vector-query/python/main.py`
  (`calculate_similarity`, `search_similar_vectors`);
* `ManageVector`  — `finished/amr/vector-query/python/manage_vector.py`
  (`store_product` over a Redis hash-store model);
* `ImplementVector` — `starter/cosmosdb/implement-vector/python/client/vector_functions.py`
  (`store_vector_document` over a Cosmos container model);
* `OptimizeQuery` — `starter/cosmosdb/optimize-query/python/client/index_functions.py`
  (`store_vector_document`, `store_to_all_containers`, `bulk_load_documents`);
* `OptimizeIndex` — `finished/cosmosdb/optimize-index/python/client/index_functions.py`
  (`vector_similarity_search`, `compare_index_performance`,
  `filtered_vector_search`, `compare_filtered_performance`).

Modelling conventions:

* Python floats are idealized as real numbers `ℝ` where square roots and
  division occur (the cosine metric), and as rationals `ℚ` where only
  pass-through arithmetic occurs (request-charge totals).
* Python's `list.sort` (Timsort) is a stable sort; it is modelled by the
  stable `List.insertionSort` from Mathlib.  `reverse=True` sorts by the
  reversed comparison while still keeping equal elements in their original
  order, i.e. it is a stable sort by the descending order.
* The external stores (Redis, Cosmos DB) are modelled by explicit state
  passing: a Redis database is a list of keyed hashes, a Cosmos database a
  list of named containers holding documents.  Their operational semantics
  (`hset` merges fields into a hash, `upsert_item` replaces the document
  with the same `id` and partition key or appends a new one, a query
  against a missing container raises) follow the semantics documented in
  the source's own comments.
* Wall-clock timing (`execution_time_ms`) and service-reported request
  charges are environment data, not functions of the inputs; request
  charges are abstracted as one unit per write, timings are omitted.
-/

namespace VectorQuery

/-- Value of `np.dot` on two equal-length 1-D arrays: the sum of pairwise
products (floats idealized as reals).  On unequal lengths `np.dot` raises;
that case is handled by the caller `calculate_similarity`, which never
reaches this value there. -/
def dot (v1 v2 : List ℝ) : ℝ := (List.zipWith (· * ·) v1 v2).sum

/-- Value of `np.linalg.norm`: the Euclidean magnitude, the square root of
the sum of squares. -/
noncomputable def magnitude (v : List ℝ) : ℝ :=
  Real.sqrt ((v.map fun x => x * x).sum)

/-- Embedding of `calculate_similarity` (`finished/amr/vector-query/python/main.py`,
lines 195-212).  The source computes `np.dot(v1, v2)` and the two norms,
returns `0.0` when either magnitude is zero, and otherwise returns the
cosine similarity `dot / (m1 * m2)`.  Any exception — in particular the
shape mismatch `np.dot` raises on vectors of unequal length — is caught by
the surrounding `except` and mapped to `0.0`. -/
noncomputable def calculate_similarity (vector1 vector2 : List ℝ) : ℝ :=
  if vector1.length ≠ vector2.length then 0
  else if magnitude vector1 = 0 ∨ magnitude vector2 = 0 then 0
  else dot vector1 vector2 / (magnitude vector1 * magnitude vector2)

/-- A stored vector hash, as read back from the store: its key, its vector
(the JSON-decoded `"vector"` field) and the remaining metadata fields. -/
structure StoredVector where
  key : String
  vector : List ℝ
  metadata : List (String × String)

/-- The comparison `similarities.sort(key=lambda x: x[1], reverse=True)`
sorts by: descending similarity score (the second tuple component). -/
def simDesc (p q : String × ℝ) : Prop := q.2 ≤ p.2

noncomputable instance : DecidableRel simDesc :=
  fun p q => Real.decidableLE q.2 p.2

instance : IsTotal (String × ℝ) simDesc := ⟨fun p q => le_total q.2 p.2⟩

instance : IsTrans (String × ℝ) simDesc :=
  ⟨fun _ _ _ h1 h2 => le_trans h2 h1⟩

/-- Embedding of `search_similar_vectors` (`finished/amr/vector-query/python/main.py`,
lines 214-266): compute the similarity of the query vector to every stored
vector, sort the `(key, similarity)` pairs by similarity descending with a
stable sort, and keep the first `top_k`.  (The source also carries the full
hash of each record through the sort for display; the hash plays no part in
ranking and is omitted here.) -/
noncomputable def search_similar_vectors (records : List StoredVector)
    (query_vector : List ℝ) (top_k : Nat) : List (String × ℝ) :=
  ((records.map fun item =>
      (item.key, calculate_similarity query_vector item.vector)).insertionSort
    simDesc).take top_k

/-- Cosine distance as §4.1 of the specification defines the metric's score
(`QueryResult.score`, lower = more similar): `1 - similarity`. -/
noncomputable def cosine_distance (a b : List ℝ) : ℝ :=
  1 - calculate_similarity a b

/-- Ascending order by distance on `(key, distance)` pairs. -/
def distAsc (p q : String × ℝ) : Prop := p.2 ≤ q.2

noncomputable instance : DecidableRel distAsc :=
  fun p q => Real.decidableLE p.2 q.2

instance : IsTotal (String × ℝ) distAsc := ⟨fun p q => le_total p.2 q.2⟩

instance : IsTrans (String × ℝ) distAsc :=
  ⟨fun _ _ _ h1 h2 => le_trans h1 h2⟩

/-- Reference top-k, following the specification's words for C1: compute
the distance to every stored record, fully sort by distance (ascending,
stably), truncate to the `k` best, and read off the record ids. -/
noncomputable def reference_full_sort_topk (records : List StoredVector)
    (query_vector : List ℝ) (k : Nat) : List String :=
  ((((records.map fun item =>
        (item.key, cosine_distance query_vector item.vector)).insertionSort
      distAsc).take k).map Prod.fst)

/-- The ordering C4 claims for query results: ascending by score, ties
broken by record id ascending. -/
def claimedResultOrder (p q : String × ℝ) : Prop :=
  p.2 < q.2 ∨ (p.2 = q.2 ∧ p.1 < q.1)

end VectorQuery

namespace ManageVector

/-- A Redis product hash as `store_product` writes it: the binary
`embedding` field (a `float32` buffer, modelled as its list of components)
plus the stringly-typed metadata fields. -/
structure ProductHash where
  embedding : List ℚ
  fields : List (String × String)
deriving DecidableEq

/-- Merging a `mapping` into an existing hash, as `hset` does: every given
field is written (the `embedding` field always, plus each metadata field),
fields not mentioned are kept. -/
def hsetHash (old data : ProductHash) : ProductHash :=
  { embedding := data.embedding,
    fields := data.fields ++
      old.fields.filter fun kv => (data.fields.lookup kv.1).isNone }

/-- Fields of the mapping that are new relative to the existing hash (the
`embedding` field already exists on an existing hash, so only metadata
fields can be new). -/
def countNewFields (old data : ProductHash) : Nat :=
  (data.fields.filter fun kv => (old.fields.lookup kv.1).isNone).length

/-- Redis `hset(key, mapping=data)` over an explicit store state: creates
the hash when the key is absent (returning the number of fields written),
otherwise merges the mapping into the existing hash (returning the number
of newly added fields). -/
def hset : List (String × ProductHash) → String → ProductHash →
    List (String × ProductHash) × Nat
  | [], key, data => ([(key, data)], 1 + data.fields.length)
  | (k, v) :: rest, key, data =>
      if k = key then ((key, hsetHash v data) :: rest, countNewFields v data)
      else
        ((k, v) :: (hset rest key data).1, (hset rest key data).2)

/-- `self.VECTOR_DIM = 8`: the collection's embedding dimensionality
(matches the HNSW index schema `DIM: 8` in `_create_vector_index`). -/
def VECTOR_DIM : Nat := 8

/-- Embedding of `VectorManager.store_product`
(`finished/amr/vector-query/python/manage_vector.py`, lines 90-112): pack
the vector into the `embedding` field, add the metadata fields, write the
hash with `hset`, and return `(True, message)` — the "stored" message when
`hset` reports new fields, the "updated" message otherwise.  Both branches
succeed; no exception arises from a plain hash write, and no
dimensionality check is performed. -/
def store_product (state : List (String × ProductHash)) (vector_key : String)
    (vector : List ℚ) (metadata : List (String × String)) :
    List (String × ProductHash) × Bool × String :=
  if (hset state vector_key ⟨vector, metadata⟩).2 > 0 then
    ((hset state vector_key ⟨vector, metadata⟩).1, true,
      "Product stored successfully under key " ++ vector_key)
  else
    ((hset state vector_key ⟨vector, metadata⟩).1, true,
      "Product updated successfully under key " ++ vector_key)

end ManageVector

namespace Cosmos

/-- A Cosmos DB document as the `store_vector_document` functions build it.
`documentId` is the partition key.  `chunkIndex` carries the
`metadata.get("chunkIndex", 0)` value (metadata is a string-to-string
mapping, so the value is kept as its string form, `"0"` by default). -/
structure Document where
  id : String
  documentId : String
  content : String
  embedding : List ℚ
  metadata : List (String × String)
  createdAt : String
  chunkIndex : String
deriving DecidableEq

/-- `upsert_item` semantics as documented in the source: "inserts if new,
updates if exists (based on id + partition key)" — replace the existing
document with the same `id` and `documentId`, else append. -/
def upsert_item : List Document → Document → List Document
  | [], d => [d]
  | x :: xs, d =>
      if x.id = d.id ∧ x.documentId = d.documentId then d :: xs
      else x :: upsert_item xs d

/-- A Cosmos database: named containers holding documents. -/
abbrev Database := List (String × List Document)

/-- Container names for the three indexing strategies (defined identically
in both `index_functions.py` modules). -/
def CONTAINER_FLAT : String := "vectors-flat"

def CONTAINER_QUANTIZED : String := "vectors-quantized"

def CONTAINER_DISKANN : String := "vectors-diskann"

/-- Replace the contents of a named container. -/
def setContainer : List (String × List Document) → String → List Document →
    List (String × List Document)
  | [], _, _ => []
  | (n, ds) :: rest, name, docs =>
      if n = name then (name, docs) :: rest
      else (n, ds) :: setContainer rest name docs

end Cosmos

namespace ImplementVector

/-- Embedding of `store_vector_document`
(`starter/cosmosdb/implement-vector/python/client/vector_functions.py`,
lines 32-70): build the document (id := chunk id, partition key :=
document id, `createdAt` := the caller-supplied current time) and upsert it
into the configured container.  The service-reported request charge is
abstracted as one unit.  No dimensionality check is performed on the
embedding. -/
def store_vector_document (container : List Cosmos.Document)
    (document_id chunk_id content : String) (embedding : List ℚ)
    (metadata : List (String × String)) (createdAt : String) :
    List Cosmos.Document × (String × String × ℚ) :=
  (Cosmos.upsert_item container
      { id := chunk_id, documentId := document_id, content := content,
        embedding := embedding, metadata := metadata, createdAt := createdAt,
        chunkIndex := (metadata.lookup "chunkIndex").getD "0" },
    (chunk_id, document_id, 1))

end ImplementVector

namespace OptimizeQuery

/-- The per-store result dictionary: chunk id, document id and the request
charge reported by the service (abstracted as one unit per write). -/
structure StoreResult where
  chunk_id : String
  document_id : String
  ru_charge : ℚ
deriving DecidableEq

/-- Embedding of `store_vector_document`
(`starter/cosmosdb/optimize-query/python/client/index_functions.py`, lines
53-101): upsert the built document into the named container.  A write
against a container absent from the database raises (Cosmos resource not
found), modelled as the error value. -/
def store_vector_document (db : Cosmos.Database) (container_name : String)
    (document_id chunk_id content : String) (embedding : List ℚ)
    (metadata : List (String × String)) (createdAt : String) :
    Cosmos.Database × Except String StoreResult :=
  match (List.lookup container_name db : Option (List Cosmos.Document)) with
  | none => (db, .error ("NotFound: " ++ container_name))
  | some docs =>
      (Cosmos.setContainer db container_name
          (Cosmos.upsert_item docs
            { id := chunk_id, documentId := document_id, content := content,
              embedding := embedding, metadata := metadata,
              createdAt := createdAt,
              chunkIndex := (metadata.lookup "chunkIndex").getD "0" }),
        .ok ⟨chunk_id, document_id, 1⟩)

/-- Embedding of `store_to_all_containers` (lines 104-129): upload the same
document to the three strategy containers (the source does so on three
parallel workers; each write targets a distinct container, so the
sequential composition is the same state transformation).  Writes to
existing containers persist even when another container's write raises;
the first raised error propagates to the caller via `future.result()`. -/
def store_to_all_containers (db : Cosmos.Database)
    (document_id chunk_id content : String) (embedding : List ℚ)
    (metadata : List (String × String)) (createdAt : String) :
    Cosmos.Database × Except String (List (String × StoreResult)) :=
  let r1 := store_vector_document db Cosmos.CONTAINER_FLAT
    document_id chunk_id content embedding metadata createdAt
  let r2 := store_vector_document r1.1 Cosmos.CONTAINER_QUANTIZED
    document_id chunk_id content embedding metadata createdAt
  let r3 := store_vector_document r2.1 Cosmos.CONTAINER_DISKANN
    document_id chunk_id content embedding metadata createdAt
  (r3.1,
    match r1.2, r2.2, r3.2 with
    | .ok a, .ok b, .ok c =>
        .ok [(Cosmos.CONTAINER_FLAT, a), (Cosmos.CONTAINER_QUANTIZED, b),
          (Cosmos.CONTAINER_DISKANN, c)]
    | .error e, _, _ => .error e
    | _, .error e, _ => .error e
    | _, _, .error e => .error e)

/-- An input document for the bulk loader. -/
structure InputDoc where
  document_id : String
  chunk_id : String
  content : String
  embedding : List ℚ
  metadata : List (String × String)
deriving DecidableEq

/-- The dictionary `bulk_load_documents` returns: `loaded_count` plus the
per-container request-charge totals `total_ru`. -/
structure BulkLoadReport where
  loaded_count : Nat
  total_ru_flat : ℚ
  total_ru_quantizedFlat : ℚ
  total_ru_diskANN : ℚ
deriving DecidableEq

/-- The `results[container]["ru_charge"]` read on a successful record. -/
def ruOf (results : List (String × StoreResult)) (name : String) : ℚ :=
  ((results.lookup name).map StoreResult.ru_charge).getD 0

/-- One step of the bulk-load loop: store the record to all containers;
on success increment `loaded_count` and accumulate the per-container
charges; on failure print the error and continue — the failure leaves no
trace in the report. -/
def bulkLoadStep (createdAt : String) (acc : Cosmos.Database × BulkLoadReport)
    (doc : InputDoc) : Cosmos.Database × BulkLoadReport :=
  let r := store_to_all_containers acc.1 doc.document_id doc.chunk_id
    doc.content doc.embedding doc.metadata createdAt
  match r.2 with
  | .ok results =>
      (r.1,
        { loaded_count := acc.2.loaded_count + 1,
          total_ru_flat :=
            acc.2.total_ru_flat + ruOf results Cosmos.CONTAINER_FLAT,
          total_ru_quantizedFlat :=
            acc.2.total_ru_quantizedFlat + ruOf results Cosmos.CONTAINER_QUANTIZED,
          total_ru_diskANN :=
            acc.2.total_ru_diskANN + ruOf results Cosmos.CONTAINER_DISKANN })
  | .error _ => (r.1, acc.2)

/-- Embedding of `bulk_load_documents` (lines 132-181): process every
record (the source dispatches them to a worker pool and reaps them with
`as_completed`; `loaded_count` and the commutative charge sums are
order-independent, so the fold in submission order is a faithful model).
A record whose store raises is logged and skipped — partial-failure
semantics — and the batch continues; the returned report carries only
`loaded_count` and `total_ru`. -/
def bulk_load_documents (db : Cosmos.Database) (documents : List InputDoc)
    (createdAt : String) : Cosmos.Database × BulkLoadReport :=
  documents.foldl (bulkLoadStep createdAt) (db, ⟨0, 0, 0, 0⟩)

end OptimizeQuery

namespace OptimizeIndex

/-- The Cosmos `VectorDistance` function under the containers' cosine
metric, as the source's comments document it: "cosine distance: 0 =
identical, 2 = opposite", i.e. `1 - cosine similarity` (components cast to
reals). -/
noncomputable def VectorDistance (a b : List ℚ) : ℝ :=
  VectorQuery.cosine_distance (a.map fun x => (x : ℝ)) (b.map fun x => (x : ℝ))

/-- `ORDER BY VectorDistance(c.embedding, @queryVector)` ascending. -/
def distLe (q : List ℚ) (d1 d2 : Cosmos.Document) : Prop :=
  VectorDistance d1.embedding q ≤ VectorDistance d2.embedding q

noncomputable instance (q : List ℚ) : DecidableRel (distLe q) :=
  fun d1 d2 => Real.decidableLE (VectorDistance d1.embedding q) (VectorDistance d2.embedding q)

instance (q : List ℚ) : IsTotal Cosmos.Document (distLe q) :=
  ⟨fun d1 d2 => le_total (VectorDistance d1.embedding q) (VectorDistance d2.embedding q)⟩

instance (q : List ℚ) : IsTrans Cosmos.Document (distLe q) :=
  ⟨fun _ _ _ h1 h2 => le_trans h1 h2⟩

/-- The server-side `SELECT TOP @topN ... ORDER BY VectorDistance(...)`:
rank the candidate documents by distance ascending and keep the first
`top_n` (the service's tie order is unspecified; the stable sort is one
deterministic model of it). -/
noncomputable def query_items_ranked (docs : List Cosmos.Document)
    (q : List ℚ) (top_n : Nat) : List Cosmos.Document :=
  (docs.insertionSort (distLe q)).take top_n

/-- One row of the result set as the search functions shape it. -/
structure SearchResult where
  chunk_id : String
  document_id : String
  content : String
  metadata : List (String × String)
  similarity_score : ℝ

/-- The dictionary a search returns: the shaped rows plus the
service-reported request charge (abstracted as zero, the value the source
falls back to when the header is unavailable; wall-clock
`execution_time_ms` is environment data and is omitted). -/
structure QueryOutcome where
  results : List SearchResult
  ru_charge : ℚ

/-- Shape a ranked document into the returned row, including the projected
`VectorDistance` score. -/
noncomputable def shapeResult (q : List ℚ) (item : Cosmos.Document) : SearchResult :=
  { chunk_id := item.id, document_id := item.documentId,
    content := item.content, metadata := item.metadata,
    similarity_score := VectorDistance item.embedding q }

/-- Embedding of `vector_similarity_search`
(`finished/cosmosdb/optimize-index/python/client/index_functions.py`, lines
121-199): run the TOP-N vector query against the named container; a query
against a container absent from the database raises (modelled as the error
value). -/
noncomputable def vector_similarity_search (db : Cosmos.Database)
    (container_name : String) (query_embedding : List ℚ) (top_n : Nat) :
    Except String QueryOutcome :=
  match (List.lookup container_name db : Option (List Cosmos.Document)) with
  | none => .error ("NotFound: " ++ container_name)
  | some docs =>
      .ok { results := (query_items_ranked docs query_embedding top_n).map
              (shapeResult query_embedding),
            ru_charge := 0 }

/-- The `(index_type, container_name)` pairs the comparison loops over. -/
def strategy_containers : List (String × String) :=
  [("flat", Cosmos.CONTAINER_FLAT), ("quantizedFlat", Cosmos.CONTAINER_QUANTIZED),
    ("diskANN", Cosmos.CONTAINER_DISKANN)]

/-- One entry of the comparison dictionary. -/
structure CompEntry where
  container : String
  results : List SearchResult
  ru_charge : ℚ
  result_count : Nat
  status : String
  error : Option String

/-- Embedding of `compare_index_performance` (lines 203-251): run the same
query against every strategy's container; each strategy's entry is built
from its own outcome — a success entry from its own results, or an error
entry capturing the raised error — inside a per-strategy `try`/`except`,
so one strategy's failure does not affect the other entries. -/
noncomputable def compare_index_performance (db : Cosmos.Database)
    (query_embedding : List ℚ) (top_n : Nat) : List (String × CompEntry) :=
  strategy_containers.map fun p =>
    (p.1,
      match vector_similarity_search db p.2 query_embedding top_n with
      | .ok result =>
          { container := p.2, results := result.results,
            ru_charge := result.ru_charge,
            result_count := result.results.length, status := "success",
            error := none }
      | .error e =>
          { container := p.2, results := [], ru_charge := 0,
            result_count := 0, status := "error", error := some e })

/-- Embedding of `filtered_vector_search` (lines 255-338): when a category
is given, add `WHERE c.metadata.category = @category` before ranking.
Pythonic truthiness: `if category:` treats both `None` and the empty
string as "no filter". -/
noncomputable def filtered_vector_search (db : Cosmos.Database)
    (container_name : String) (query_embedding : List ℚ)
    (category : Option String) (top_n : Nat) : Except String QueryOutcome :=
  match (List.lookup container_name db : Option (List Cosmos.Document)) with
  | none => .error ("NotFound: " ++ container_name)
  | some docs =>
      .ok { results :=
              (query_items_ranked
                  (match category with
                    | some c =>
                        if c ≠ "" then
                          docs.filter fun d =>
                            d.metadata.lookup "category" = some c
                        else docs
                    | none => docs)
                  query_embedding top_n).map (shapeResult query_embedding),
            ru_charge := 0 }

/-- Embedding of `compare_filtered_performance` (lines 341-377): the
filtered search run against every strategy container, with the same
per-strategy `try`/`except` shape as `compare_index_performance`. -/
noncomputable def compare_filtered_performance (db : Cosmos.Database)
    (query_embedding : List ℚ) (category : Option String) (top_n : Nat) :
    List (String × CompEntry) :=
  strategy_containers.map fun p =>
    (p.1,
      match filtered_vector_search db p.2 query_embedding category top_n with
      | .ok result =>
          { container := p.2, results := result.results,
            ru_charge := result.ru_charge,
            result_count := result.results.length, status := "success",
            error := none }
      | .error e =>
          { container := p.2, results := [], ru_charge := 0,
            result_count := 0, status := "error", error := some e })

end OptimizeIndex

/-- A database holding the three (initially empty) strategy containers. -/
def c3Db : Cosmos.Database :=
  [(Cosmos.CONTAINER_FLAT, []), (Cosmos.CONTAINER_QUANTIZED, []),
    (Cosmos.CONTAINER_DISKANN, [])]

/-- A batch of 10 records in which record #5 (chunk `"c4"`) has the wrong
dimensionality: its embedding has length 3 while every other record's has
length 4. -/
def c3Batch : List OptimizeQuery.InputDoc :=
  [⟨"doc", "c0", "", [1, 0, 0, 0], []⟩,
    ⟨"doc", "c1", "", [0, 1, 0, 0], []⟩,
    ⟨"doc", "c2", "", [0, 0, 1, 0], []⟩,
    ⟨"doc", "c3", "", [0, 0, 0, 1], []⟩,
    ⟨"doc", "c4", "", [1, 2, 3], []⟩,
    ⟨"doc", "c5", "", [1, 1, 0, 0], []⟩,
    ⟨"doc", "c6", "", [1, 0, 1, 0], []⟩,
    ⟨"doc", "c7", "", [1, 0, 0, 1], []⟩,
    ⟨"doc", "c8", "", [0, 1, 1, 0], []⟩,
    ⟨"doc", "c9", "", [1, 1, 1, 1], []⟩]

/-- A document tagged `category=A`. -/
def c8Doc : Cosmos.Document :=
  { id := "c1", documentId := "d1", content := "", embedding := [1, 0],
    metadata := [("category", "A")], createdAt := "t", chunkIndex := "0" }

/-- A database whose three strategy containers each hold the one document
tagged `category=A` (no record is tagged `category=B` or `category=""`). -/
def c8Db : Cosmos.Database :=
  [(Cosmos.CONTAINER_FLAT, [c8Doc]), (Cosmos.CONTAINER_QUANTIZED, [c8Doc]),
    (Cosmos.CONTAINER_DISKANN, [c8Doc])]

theorem VectorQuery.dot_comm (a b : List ℝ) : dot a b = dot b a := by
  unfold dot
  rw [List.zipWith_comm_of_comm _ mul_comm]

/-- C6: for every pair of vectors `a` and `b` of equal length, the metric is
commutative: `calculate_similarity a b = calculate_similarity b a`. -/
theorem C6_metric_symmetry (a b : List ℝ) (h : a.length = b.length) :
    VectorQuery.calculate_similarity a b = VectorQuery.calculate_similarity b a := by
  unfold VectorQuery.calculate_similarity
  have h1 : ¬(a.length ≠ b.length) := by simp [h]
  have h2 : ¬(b.length ≠ a.length) := by simp [h]
  rw [if_neg h1, if_neg h2]
  by_cases hz : VectorQuery.magnitude a = 0 ∨ VectorQuery.magnitude b = 0
  · rw [if_pos hz, if_pos (Or.symm hz)]
  · rw [if_neg hz, if_neg (fun hzz => hz (Or.symm hzz)), VectorQuery.dot_comm,
      mul_comm]

/-- Witness for C6 at the concrete pair `[1, 2]`, `[3, 4]`. -/
theorem C6_metric_symmetry_witness :
    ([1, 2] : List ℝ).length = ([3, 4] : List ℝ).length ∧
      VectorQuery.calculate_similarity [1, 2] [3, 4] =
        VectorQuery.calculate_similarity [3, 4] [1, 2] :=
  ⟨rfl, C6_metric_symmetry [1, 2] [3, 4] rfl⟩

/-- C7: for equal-length vectors where either magnitude is zero, the
function returns `0.0` (by the explicit zero-magnitude branch of the
source) rather than raising a division error. -/
theorem C7_zero_magnitude (a b : List ℝ) (h : a.length = b.length)
    (hz : VectorQuery.magnitude a = 0 ∨ VectorQuery.magnitude b = 0) :
    VectorQuery.calculate_similarity a b = 0 := by
  unfold VectorQuery.calculate_similarity
  rw [if_neg (by simp [h]), if_pos hz]

/-- Witness for C7 at the degenerate pair `[0, 0]`, `[3, 4]`. -/
theorem C7_zero_magnitude_witness :
    (([0, 0] : List ℝ).length = ([3, 4] : List ℝ).length ∧
        (VectorQuery.magnitude [0, 0] = 0 ∨ VectorQuery.magnitude [3, 4] = 0)) ∧
      VectorQuery.calculate_similarity [0, 0] [3, 4] = 0 :=
  ⟨⟨rfl, Or.inl (by simp [VectorQuery.magnitude])⟩,
    C7_zero_magnitude [0, 0] [3, 4] rfl (Or.inl (by simp [VectorQuery.magnitude]))⟩

/-- C10: `calculate_similarity` is a total real-valued function of its two
inputs (the embedding needs no error case because the source catches every
exception), and on vectors of unequal length — where `np.dot` raises a
shape-mismatch error that the `except` handler catches — it returns `0.0`. -/
theorem C10_mismatch_maps_to_zero (v1 v2 : List ℝ) (h : v1.length ≠ v2.length) :
    VectorQuery.calculate_similarity v1 v2 = 0 := by
  unfold VectorQuery.calculate_similarity
  rw [if_pos h]

/-- Witness for C10 at the unequal-length pair `[1]`, `[1, 2]`. -/
theorem C10_mismatch_maps_to_zero_witness :
    ([1] : List ℝ).length ≠ ([1, 2] : List ℝ).length ∧
      VectorQuery.calculate_similarity [1] [1, 2] = 0 :=
  ⟨by decide, C10_mismatch_maps_to_zero [1] [1, 2] (by decide)⟩

/-- C1: for every collection of at least `k` stored vectors and every query
vector, the brute-force search returns exactly the record ids obtained by
computing the distance to every stored record, fully (stably) sorting by
distance ascending, and truncating to the `k` best — as equal lists of ids,
hence equal record-id sets, including inputs where records share a vector. -/
theorem C1_exact_topk (records : List VectorQuery.StoredVector)
    (query_vector : List ℝ) (k : Nat) (h : k ≤ records.length) :
    (VectorQuery.search_similar_vectors records query_vector k).map Prod.fst =
      VectorQuery.reference_full_sort_topk records query_vector k := by
  unfold VectorQuery.search_similar_vectors VectorQuery.reference_full_sort_topk
  have hmap :
      (records.map fun item =>
          (item.key, VectorQuery.cosine_distance query_vector item.vector)) =
        (records.map fun item =>
            (item.key, VectorQuery.calculate_similarity query_vector item.vector)).map
          fun p => (p.1, 1 - p.2) := by
    rw [List.map_map]
    rfl
  rw [hmap, ← List.map_insertionSort VectorQuery.simDesc VectorQuery.distAsc
    (fun p => (p.1, 1 - p.2))
    (records.map fun item =>
      (item.key, VectorQuery.calculate_similarity query_vector item.vector))
    (fun a _ b _ => by
      dsimp only [VectorQuery.simDesc, VectorQuery.distAsc]
      constructor
      · intro hle
        linarith
      · intro hle
        linarith),
    ← List.map_take, List.map_map]
  rfl

/-- Witness for C1 on a concrete three-record collection with a duplicated
vector and `k = 2`. -/
theorem C1_exact_topk_witness :
    2 ≤ ([⟨"vector:a", [1, 0], []⟩, ⟨"vector:b", [1, 0], []⟩,
        ⟨"vector:c", [0, 1], []⟩] : List VectorQuery.StoredVector).length ∧
      (VectorQuery.search_similar_vectors
            [⟨"vector:a", [1, 0], []⟩, ⟨"vector:b", [1, 0], []⟩,
              ⟨"vector:c", [0, 1], []⟩] [1, 0] 2).map Prod.fst =
        VectorQuery.reference_full_sort_topk
          [⟨"vector:a", [1, 0], []⟩, ⟨"vector:b", [1, 0], []⟩,
            ⟨"vector:c", [0, 1], []⟩] [1, 0] 2 :=
  ⟨by decide,
    C1_exact_topk
      [⟨"vector:a", [1, 0], []⟩, ⟨"vector:b", [1, 0], []⟩, ⟨"vector:c", [0, 1], []⟩]
      [1, 0] 2 (by decide)⟩

/-- Counterexample to C4 as stated: with two records sharing the vector
`[1, 0]` stored under keys `"vector:b"` and `"vector:a"` (in that scan
order), the query `[1, 0]` with `k = 2` returns the two tied results in
scan order `b, a`; the result list is NOT ordered ascending-by-score with
ties broken by record id ascending. -/
theorem C4_counterexample :
    ¬ List.Pairwise VectorQuery.claimedResultOrder
        (VectorQuery.search_similar_vectors
          [⟨"vector:b", [1, 0], []⟩, ⟨"vector:a", [1, 0], []⟩] [1, 0] 2) := by
  intro hp
  have hout :
      VectorQuery.search_similar_vectors
          [⟨"vector:b", [1, 0], []⟩, ⟨"vector:a", [1, 0], []⟩] [1, 0] 2 =
        [("vector:b", VectorQuery.calculate_similarity [1, 0] [1, 0]),
          ("vector:a", VectorQuery.calculate_similarity [1, 0] [1, 0])] := by
    unfold VectorQuery.search_similar_vectors
    rw [List.map_cons, List.map_cons, List.map_nil]
    rw [List.Sorted.insertionSort_eq
      (by
        constructor
        · intro p hmem
          rcases List.mem_singleton.mp hmem with rfl
          exact le_refl _
        · exact List.sorted_singleton _)]
    rfl
  rw [hout] at hp
  have hrel := (List.pairwise_cons.mp hp).1 _ (List.mem_cons_self _ _)
  rcases hrel with hlt | ⟨_, hid⟩
  · exact lt_irrefl _ hlt
  · have hids : ¬("vector:b" < "vector:a") := by
      rw [String.lt_iff_toList_lt]
      decide
    exact hids hid

/-- C4 as amended: query results are sorted descending by similarity score
(equivalently ascending by the cosine distance `1 - similarity`); ties are
kept in the stable sort's scan order and are not re-broken by record id.
Determinism holds: the search is a pure function of the stored records and
the query, so identical queries against an unmodified collection return
identical result lists. -/
theorem C4_amended_descending_order (records : List VectorQuery.StoredVector)
    (query_vector : List ℝ) (k : Nat) :
    List.Sorted VectorQuery.simDesc
      (VectorQuery.search_similar_vectors records query_vector k) := by
  unfold VectorQuery.search_similar_vectors
  exact List.Pairwise.sublist (List.take_sublist _ _)
    (List.sorted_insertionSort VectorQuery.simDesc _)

theorem ManageVector.hset_mem_keys (state : List (String × ProductHash))
    (key : String) (data : ProductHash) :
    key ∈ (hset state key data).1.map Prod.fst := by
  induction state with
  | nil => simp [hset]
  | cons kv rest ih =>
    rcases kv with ⟨k, v⟩
    by_cases hk : k = key
    · simp [hset, hk]
    · simp only [hset, if_neg hk, List.map_cons, List.mem_cons]
      exact Or.inr ih

/-- Counterexample to C2 as stated: inserting the vector `[1, 2, 3]` —
length 3, differing from the collection dimensionality `VECTOR_DIM = 8` —
into an empty store does not fail with any dimension error: it returns
success, and the record IS stored (the record set grows from `[]` to
`["vector:x"]`). -/
theorem C2_counterexample :
    ([1, 2, 3] : List ℚ).length ≠ ManageVector.VECTOR_DIM ∧
      (ManageVector.store_product [] "vector:x" [1, 2, 3] []).2.1 = true ∧
      (ManageVector.store_product [] "vector:x" [1, 2, 3] []).1.map Prod.fst =
        ["vector:x"] := by
  decide

/-- C2 as amended: `store_product` performs no dimensionality validation —
inserting a record whose vector length differs from the collection's
dimensionality (`VECTOR_DIM = 8`) succeeds (returns `True`) and stores the
record: its key is in the store's key set afterwards. -/
theorem C2_amended_no_dimension_check
    (state : List (String × ManageVector.ProductHash)) (vector_key : String)
    (vector : List ℚ) (metadata : List (String × String))
    (h : vector.length ≠ ManageVector.VECTOR_DIM) :
    (ManageVector.store_product state vector_key vector metadata).2.1 = true ∧
      vector_key ∈
        (ManageVector.store_product state vector_key vector metadata).1.map
          Prod.fst := by
  unfold ManageVector.store_product
  split_ifs with hc
  · exact ⟨rfl, ManageVector.hset_mem_keys state vector_key ⟨vector, metadata⟩⟩
  · exact ⟨rfl, ManageVector.hset_mem_keys state vector_key ⟨vector, metadata⟩⟩

/-- Witness for the amended C2 at a concrete wrong-length insert. -/
theorem C2_amended_no_dimension_check_witness :
    ([1, 2, 3] : List ℚ).length ≠ ManageVector.VECTOR_DIM ∧
      ((ManageVector.store_product [] "vector:y" [1, 2, 3] []).2.1 = true ∧
        "vector:y" ∈
          (ManageVector.store_product [] "vector:y" [1, 2, 3] []).1.map
            Prod.fst) :=
  ⟨by decide,
    C2_amended_no_dimension_check [] "vector:y" [1, 2, 3] [] (by decide)⟩

theorem Cosmos.map_id_upsert_upsert (c : List Document) (d d' : Document)
    (h1 : d'.id = d.id) (h2 : d'.documentId = d.documentId) :
    (upsert_item (upsert_item c d) d').map Document.id =
      (upsert_item c d).map Document.id := by
  induction c with
  | nil =>
    simp only [upsert_item]
    rw [if_pos ⟨h1.symm, h2.symm⟩]
    simp [h1]
  | cons x xs ih =>
    by_cases hx : x.id = d.id ∧ x.documentId = d.documentId
    · simp only [upsert_item]
      rw [if_pos hx]
      simp only [upsert_item]
      rw [if_pos ⟨h1.symm, h2.symm⟩]
      simp [h1]
    · simp only [upsert_item]
      rw [if_neg hx]
      simp only [upsert_item]
      have hx' : ¬(x.id = d'.id ∧ x.documentId = d'.documentId) := by
        rw [h1, h2]; exact hx
      rw [if_neg hx']
      simp only [List.map_cons]
      rw [ih]

/-- C9: storing the same document twice (same chunk id and partition key;
the `createdAt` timestamps of the two calls may differ) succeeds both
times and replaces rather than duplicates: the stored record-id list —
hence the record-id set — after the second store equals the one after the
first store. -/
theorem C9_store_twice_upserts (container : List Cosmos.Document)
    (document_id chunk_id content : String) (embedding : List ℚ)
    (metadata : List (String × String)) (t1 t2 : String) :
    ((ImplementVector.store_vector_document
          (ImplementVector.store_vector_document container document_id chunk_id
              content embedding metadata t1).1
          document_id chunk_id content embedding metadata t2).1.map
        Cosmos.Document.id) =
      ((ImplementVector.store_vector_document container document_id chunk_id
            content embedding metadata t1).1.map Cosmos.Document.id) := by
  unfold ImplementVector.store_vector_document
  exact Cosmos.map_id_upsert_upsert container _ _ rfl rfl

theorem Cosmos.lookup_setContainer_isSome (db : List (String × List Document))
    (name : String) (docs : List Document) (n' : String) :
    (List.lookup n' (setContainer db name docs)).isSome =
      (List.lookup n' db).isSome := by
  induction db with
  | nil => rfl
  | cons kv rest ih =>
    rcases kv with ⟨k, ds⟩
    by_cases hk : k = name
    · subst hk
      rcases Bool.eq_false_or_eq_true (n' == k) with h' | h' <;>
        simp [setContainer, List.lookup, h']
    · rcases Bool.eq_false_or_eq_true (n' == k) with h' | h' <;>
        simp [setContainer, List.lookup, hk, h', ih]

theorem OptimizeQuery.store_vector_document_ok (db : Cosmos.Database)
    (name document_id chunk_id content : String) (embedding : List ℚ)
    (metadata : List (String × String)) (createdAt : String)
    (h : (List.lookup name db).isSome) :
    (store_vector_document db name document_id chunk_id content embedding
          metadata createdAt).2 = .ok ⟨chunk_id, document_id, 1⟩ ∧
      ∀ n', ((store_vector_document db name document_id chunk_id content
            embedding metadata createdAt).1.lookup n').isSome =
          (List.lookup n' db).isSome := by
  unfold store_vector_document
  cases hlk : (List.lookup name db : Option (List Cosmos.Document)) with
  | none => rw [hlk] at h; exact absurd h (by simp)
  | some docs =>
    exact ⟨rfl, fun n' => Cosmos.lookup_setContainer_isSome db name _ n'⟩

theorem OptimizeQuery.store_to_all_containers_ok (db : Cosmos.Database)
    (document_id chunk_id content : String) (embedding : List ℚ)
    (metadata : List (String × String)) (createdAt : String)
    (hf : (List.lookup Cosmos.CONTAINER_FLAT db).isSome)
    (hq : (List.lookup Cosmos.CONTAINER_QUANTIZED db).isSome)
    (hd : (List.lookup Cosmos.CONTAINER_DISKANN db).isSome) :
    (∃ rs, (store_to_all_containers db document_id chunk_id content embedding
        metadata createdAt).2 = .ok rs) ∧
      ∀ n', ((store_to_all_containers db document_id chunk_id content embedding
            metadata createdAt).1.lookup n').isSome = (List.lookup n' db).isSome := by
  obtain ⟨h1ok, h1pres⟩ := store_vector_document_ok db Cosmos.CONTAINER_FLAT
    document_id chunk_id content embedding metadata createdAt hf
  obtain ⟨h2ok, h2pres⟩ := store_vector_document_ok
    (store_vector_document db Cosmos.CONTAINER_FLAT document_id chunk_id content
      embedding metadata createdAt).1
    Cosmos.CONTAINER_QUANTIZED document_id chunk_id content embedding metadata
    createdAt (by rw [h1pres]; exact hq)
  obtain ⟨h3ok, h3pres⟩ := store_vector_document_ok
    (store_vector_document
      (store_vector_document db Cosmos.CONTAINER_FLAT document_id chunk_id
        content embedding metadata createdAt).1
      Cosmos.CONTAINER_QUANTIZED document_id chunk_id content embedding metadata
      createdAt).1
    Cosmos.CONTAINER_DISKANN document_id chunk_id content embedding metadata
    createdAt (by rw [h2pres, h1pres]; exact hd)
  constructor
  · refine ⟨[(Cosmos.CONTAINER_FLAT, ⟨chunk_id, document_id, 1⟩),
      (Cosmos.CONTAINER_QUANTIZED, ⟨chunk_id, document_id, 1⟩),
      (Cosmos.CONTAINER_DISKANN, ⟨chunk_id, document_id, 1⟩)], ?_⟩
    unfold store_to_all_containers
    dsimp only
    rw [h1ok, h2ok, h3ok]
  · intro n'
    unfold store_to_all_containers
    dsimp only
    rw [h3pres, h2pres, h1pres]

theorem OptimizeQuery.bulk_load_loop_count (createdAt : String)
    (documents : List InputDoc) :
    ∀ (db : Cosmos.Database) (rep : BulkLoadReport),
      (List.lookup Cosmos.CONTAINER_FLAT db).isSome →
      (List.lookup Cosmos.CONTAINER_QUANTIZED db).isSome →
      (List.lookup Cosmos.CONTAINER_DISKANN db).isSome →
      (documents.foldl (bulkLoadStep createdAt) (db, rep)).2.loaded_count =
        rep.loaded_count + documents.length := by
  induction documents with
  | nil => intro db rep _ _ _; simp
  | cons doc rest ih =>
    intro db rep hf hq hd
    obtain ⟨⟨rs, hok⟩, hpres⟩ := store_to_all_containers_ok db doc.document_id
      doc.chunk_id doc.content doc.embedding doc.metadata createdAt hf hq hd
    have hstep : bulkLoadStep createdAt (db, rep) doc =
        ((store_to_all_containers db doc.document_id doc.chunk_id doc.content
            doc.embedding doc.metadata createdAt).1,
          { loaded_count := rep.loaded_count + 1,
            total_ru_flat := rep.total_ru_flat + ruOf rs Cosmos.CONTAINER_FLAT,
            total_ru_quantizedFlat :=
              rep.total_ru_quantizedFlat + ruOf rs Cosmos.CONTAINER_QUANTIZED,
            total_ru_diskANN :=
              rep.total_ru_diskANN + ruOf rs Cosmos.CONTAINER_DISKANN }) := by
      unfold bulkLoadStep
      dsimp only
      rw [hok]
    rw [List.foldl_cons, hstep]
    rw [ih _ _ (by rw [hpres]; exact hf) (by rw [hpres]; exact hq)
      (by rw [hpres]; exact hd)]
    dsimp only
    simp only [List.length_cons]
    omega

/-- Counterexample to C3 as stated: for the batch of 10 records in which
record #5 (chunk `"c4"`) has the wrong dimensionality (length 3 instead of
4), the report counts all 10 records as loaded — not 9 — because no
dimensionality check exists anywhere on the store path; the wrong-length
record is stored like the others (all ten ids land in the `vectors-flat`
container), and the report has no failure fields at all. -/
theorem C3_counterexample :
    (c3Batch.get? 4).map (fun d => d.embedding.length) = some 3 ∧
      (OptimizeQuery.bulk_load_documents c3Db c3Batch "t").2.loaded_count = 10 ∧
      ((List.lookup Cosmos.CONTAINER_FLAT
            (OptimizeQuery.bulk_load_documents c3Db c3Batch "t").1).getD []).map
          Cosmos.Document.id =
        ["c0", "c1", "c2", "c3", "c4", "c5", "c6", "c7", "c8", "c9"] := by
  decide

/-- C3 as amended: an individual record's failure is isolated — a record
whose store raises is skipped (logged to the console only, the report has
no failure count or failure list) and the batch continues — but a
wrong-dimensionality record is NOT a failure: no dimension validation
exists, so whenever the three strategy containers exist every record of
the batch loads, and `loaded_count` equals the full batch size (10 of 10
in the claimed scenario, not 9). -/
theorem C3_amended_all_records_load (db : Cosmos.Database)
    (documents : List OptimizeQuery.InputDoc) (createdAt : String)
    (hf : (List.lookup Cosmos.CONTAINER_FLAT db).isSome)
    (hq : (List.lookup Cosmos.CONTAINER_QUANTIZED db).isSome)
    (hd : (List.lookup Cosmos.CONTAINER_DISKANN db).isSome) :
    (OptimizeQuery.bulk_load_documents db documents createdAt).2.loaded_count =
      documents.length := by
  unfold OptimizeQuery.bulk_load_documents
  rw [OptimizeQuery.bulk_load_loop_count createdAt documents db ⟨0, 0, 0, 0⟩
    hf hq hd]
  simp

/-- Witness for the amended C3 on the concrete 10-record batch. -/
theorem C3_amended_all_records_load_witness :
    ((List.lookup Cosmos.CONTAINER_FLAT c3Db).isSome ∧
        (List.lookup Cosmos.CONTAINER_QUANTIZED c3Db).isSome ∧
        (List.lookup Cosmos.CONTAINER_DISKANN c3Db).isSome) ∧
      (OptimizeQuery.bulk_load_documents c3Db c3Batch "t").2.loaded_count =
        c3Batch.length :=
  ⟨⟨by decide, by decide, by decide⟩,
    C3_amended_all_records_load c3Db c3Batch "t" (by decide) (by decide)
      (by decide)⟩

/-- C5: the comparison harness runs the query against every registered
strategy; each strategy's entry in the returned map is determined by that
strategy's own query outcome alone — an error entry recording the raised
error when its query fails, a success entry carrying its own computed
results otherwise — so one strategy's failure leaves every other
strategy's entry computed and returned. -/
theorem C5_compare_isolates_failures (db : Cosmos.Database) (q : List ℚ)
    (n : Nat) (it cn : String)
    (hmem : (it, cn) ∈ OptimizeIndex.strategy_containers) :
    ∃ e, List.lookup it (OptimizeIndex.compare_index_performance db q n) =
        some e ∧
      ((∃ err, OptimizeIndex.vector_similarity_search db cn q n = .error err ∧
          e.status = "error" ∧ e.error = some err ∧ e.results = []) ∨
        (∃ r, OptimizeIndex.vector_similarity_search db cn q n = .ok r ∧
          e.status = "success" ∧ e.error = none ∧ e.results = r.results ∧
          e.result_count = r.results.length)) := by
  simp only [OptimizeIndex.strategy_containers, List.mem_cons,
    List.mem_singleton, List.not_mem_nil, or_false] at hmem
  rcases hmem with h | h | h
  · injection h with h1 h2
    subst h1; subst h2
    unfold OptimizeIndex.compare_index_performance
    simp only [OptimizeIndex.strategy_containers, List.map_cons, List.map_nil]
    cases hs : OptimizeIndex.vector_similarity_search db Cosmos.CONTAINER_FLAT q n with
    | error err =>
      refine ⟨⟨Cosmos.CONTAINER_FLAT, [], 0, 0, "error", some err⟩, ?_,
        Or.inl ⟨err, rfl, rfl, rfl, rfl⟩⟩
      simp [List.lookup]
    | ok r =>
      refine ⟨⟨Cosmos.CONTAINER_FLAT, r.results, r.ru_charge, r.results.length,
        "success", none⟩, ?_, Or.inr ⟨r, rfl, rfl, rfl, rfl, rfl⟩⟩
      simp [List.lookup]
  · injection h with h1 h2
    subst h1; subst h2
    unfold OptimizeIndex.compare_index_performance
    simp only [OptimizeIndex.strategy_containers, List.map_cons, List.map_nil]
    cases hs : OptimizeIndex.vector_similarity_search db Cosmos.CONTAINER_QUANTIZED q n with
    | error err =>
      refine ⟨⟨Cosmos.CONTAINER_QUANTIZED, [], 0, 0, "error", some err⟩, ?_,
        Or.inl ⟨err, rfl, rfl, rfl, rfl⟩⟩
      simp [List.lookup]
    | ok r =>
      refine ⟨⟨Cosmos.CONTAINER_QUANTIZED, r.results, r.ru_charge, r.results.length,
        "success", none⟩, ?_, Or.inr ⟨r, rfl, rfl, rfl, rfl, rfl⟩⟩
      simp [List.lookup]
  · injection h with h1 h2
    subst h1; subst h2
    unfold OptimizeIndex.compare_index_performance
    simp only [OptimizeIndex.strategy_containers, List.map_cons, List.map_nil]
    cases hs : OptimizeIndex.vector_similarity_search db Cosmos.CONTAINER_DISKANN q n with
    | error err =>
      refine ⟨⟨Cosmos.CONTAINER_DISKANN, [], 0, 0, "error", some err⟩, ?_,
        Or.inl ⟨err, rfl, rfl, rfl, rfl⟩⟩
      simp [List.lookup]
    | ok r =>
      refine ⟨⟨Cosmos.CONTAINER_DISKANN, r.results, r.ru_charge, r.results.length,
        "success", none⟩, ?_, Or.inr ⟨r, rfl, rfl, rfl, rfl, rfl⟩⟩
      simp [List.lookup]

/-- Witness for C5: a database in which the `vectors-flat` container is
missing, queried through the comparison harness for the `"flat"`
strategy. -/
theorem C5_compare_isolates_failures_witness :
    ("flat", Cosmos.CONTAINER_FLAT) ∈ OptimizeIndex.strategy_containers ∧
      ∃ e, List.lookup "flat"
            (OptimizeIndex.compare_index_performance
              [(Cosmos.CONTAINER_QUANTIZED, []), (Cosmos.CONTAINER_DISKANN, [])]
              [] 1) = some e ∧
        ((∃ err, OptimizeIndex.vector_similarity_search
              [(Cosmos.CONTAINER_QUANTIZED, []), (Cosmos.CONTAINER_DISKANN, [])]
              Cosmos.CONTAINER_FLAT [] 1 = .error err ∧
            e.status = "error" ∧ e.error = some err ∧ e.results = []) ∨
          (∃ r, OptimizeIndex.vector_similarity_search
              [(Cosmos.CONTAINER_QUANTIZED, []), (Cosmos.CONTAINER_DISKANN, [])]
              Cosmos.CONTAINER_FLAT [] 1 = .ok r ∧
            e.status = "success" ∧ e.error = none ∧ e.results = r.results ∧
            e.result_count = r.results.length)) :=
  ⟨by decide,
    C5_compare_isolates_failures
      [(Cosmos.CONTAINER_QUANTIZED, []), (Cosmos.CONTAINER_DISKANN, [])] [] 1
      "flat" Cosmos.CONTAINER_FLAT (by decide)⟩

theorem OptimizeIndex.filtered_vector_search_empty (db : Cosmos.Database)
    (name : String) (q : List ℚ) (cat : String) (n : Nat)
    (docs : List Cosmos.Document) (hlk : List.lookup name db = some docs)
    (hcat : cat ≠ "")
    (hnone : ∀ d ∈ docs, d.metadata.lookup "category" ≠ some cat) :
    filtered_vector_search db name q (some cat) n = .ok ⟨[], 0⟩ := by
  unfold filtered_vector_search
  simp only [hlk]
  have hfil :
      docs.filter (fun d => d.metadata.lookup "category" = some cat) = [] := by
    rw [List.filter_eq_nil_iff]
    intro d hd
    simpa using hnone d hd
  rw [if_pos hcat, hfil]
  simp [query_items_ranked]

/-- Counterexample to C8 as stated: in a collection whose only record is
tagged `category=A`, the predicate `category=""` is satisfied by no stored
record, yet the `"flat"` strategy does not return an empty result list —
`filtered_vector_search` tests the category with Python truthiness
(`if category:`), so the empty-string predicate is silently dropped and
the full (unfiltered) ranking of 1 result is returned. -/
theorem C8_counterexample :
    (c8Db.all fun ct =>
        ct.2.all fun d => !(d.metadata.lookup "category" == some "")) = true ∧
      (List.lookup "flat"
            (OptimizeIndex.compare_filtered_performance c8Db [1, 0] (some "") 5)).map
          (fun e => (e.status, e.results.length)) = some ("success", 1) := by
  exact ⟨by decide, rfl⟩

/-- C8 as amended: for every query carrying a NON-EMPTY category predicate
that no stored record satisfies, every strategy returns a success entry
with an empty result list (an empty-string predicate is instead treated by
the source's truthiness test as "no filter" and returns unfiltered
results). -/
theorem C8_amended_unmatched_predicate_empty (db : Cosmos.Database)
    (q : List ℚ) (cat : String) (n : Nat) (hcat : cat ≠ "")
    (hf : ∃ docs, List.lookup Cosmos.CONTAINER_FLAT db = some docs ∧
      ∀ d ∈ docs, d.metadata.lookup "category" ≠ some cat)
    (hq : ∃ docs, List.lookup Cosmos.CONTAINER_QUANTIZED db = some docs ∧
      ∀ d ∈ docs, d.metadata.lookup "category" ≠ some cat)
    (hd : ∃ docs, List.lookup Cosmos.CONTAINER_DISKANN db = some docs ∧
      ∀ d ∈ docs, d.metadata.lookup "category" ≠ some cat)
    (it cn : String) (hmem : (it, cn) ∈ OptimizeIndex.strategy_containers) :
    List.lookup it
        (OptimizeIndex.compare_filtered_performance db q (some cat) n) =
      some ⟨cn, [], 0, 0, "success", none⟩ := by
  simp only [OptimizeIndex.strategy_containers, List.mem_cons,
    List.mem_singleton, List.not_mem_nil, or_false] at hmem
  rcases hmem with h | h | h
  · injection h with h1 h2
    subst h1; subst h2
    obtain ⟨docs, hlk, hno⟩ := hf
    have hemp := OptimizeIndex.filtered_vector_search_empty db
      Cosmos.CONTAINER_FLAT q cat n docs hlk hcat hno
    unfold OptimizeIndex.compare_filtered_performance
    simp only [OptimizeIndex.strategy_containers, List.map_cons, List.map_nil,
      hemp]
    simp [List.lookup]
  · injection h with h1 h2
    subst h1; subst h2
    obtain ⟨docs, hlk, hno⟩ := hq
    have hemp := OptimizeIndex.filtered_vector_search_empty db
      Cosmos.CONTAINER_QUANTIZED q cat n docs hlk hcat hno
    unfold OptimizeIndex.compare_filtered_performance
    simp only [OptimizeIndex.strategy_containers, List.map_cons, List.map_nil,
      hemp]
    simp [List.lookup]
  · injection h with h1 h2
    subst h1; subst h2
    obtain ⟨docs, hlk, hno⟩ := hd
    have hemp := OptimizeIndex.filtered_vector_search_empty db
      Cosmos.CONTAINER_DISKANN q cat n docs hlk hcat hno
    unfold OptimizeIndex.compare_filtered_performance
    simp only [OptimizeIndex.strategy_containers, List.map_cons, List.map_nil,
      hemp]
    simp [List.lookup]

/-- Witness for the amended C8: the `category=B` predicate on the
collection whose records are all tagged `category=A`, for the `"flat"`
strategy. -/
theorem C8_amended_unmatched_predicate_empty_witness :
    (("B" : String) ≠ "" ∧
        (∃ docs, List.lookup Cosmos.CONTAINER_FLAT c8Db = some docs ∧
          ∀ d ∈ docs, d.metadata.lookup "category" ≠ some "B") ∧
        (∃ docs, List.lookup Cosmos.CONTAINER_QUANTIZED c8Db = some docs ∧
          ∀ d ∈ docs, d.metadata.lookup "category" ≠ some "B") ∧
        (∃ docs, List.lookup Cosmos.CONTAINER_DISKANN c8Db = some docs ∧
          ∀ d ∈ docs, d.metadata.lookup "category" ≠ some "B") ∧
        ("flat", Cosmos.CONTAINER_FLAT) ∈ OptimizeIndex.strategy_containers) ∧
      List.lookup "flat"
          (OptimizeIndex.compare_filtered_performance c8Db [1, 0] (some "B") 1) =
        some ⟨Cosmos.CONTAINER_FLAT, [], 0, 0, "success", none⟩ :=
  ⟨⟨by decide, ⟨[c8Doc], rfl, by decide⟩, ⟨[c8Doc], rfl, by decide⟩,
      ⟨[c8Doc], rfl, by decide⟩, by decide⟩,
    C8_amended_unmatched_predicate_empty c8Db [1, 0] "B" 1 (by decide)
      ⟨[c8Doc], rfl, by decide⟩ ⟨[c8Doc], rfl, by decide⟩
      ⟨[c8Doc], rfl, by decide⟩ "flat" Cosmos.CONTAINER_FLAT (by decide)⟩
